import Mathlib

/-!
Verification development for the rshuffle MPD shuffler.

Strings are modelled as `List Char`; the Rust `u32`/`usize` integers are
modelled as `Nat` (the spec's "non-negative integer" domain), except that the
`usize` subtraction in `is_active` is modelled as a checked subtraction whose
failure (`none`) stands for the Rust panic on underflow.  Randomness
(`SliceRandom::choose`) is modelled by an arbitrary index `k`, reduced modulo
the candidate-list length; `choose` returns `none` exactly on an empty slice.
The recursion of `queue_next` is fuel-indexed; a dedicated `RecursionLimit`
error marks fuel exhaustion, and the development proves that fuel 2 is always
enough (the reset path runs at most once).
-/

deriving instance DecidableEq for Except

namespace Rshuffle

/-- Character-wise lowercasing, modelling `str::to_lowercase`. -/
def toLowerStr (s : List Char) : List Char :=
  s.map Char.toLower

/-- Substring test: `isSubstring pat hay` is true iff `pat` occurs contiguously
in `hay`, modelling Rust `str::contains`. -/
def isSubstring (pat : List Char) : List Char → Bool
  | [] => pat.isEmpty
  | c :: rest => pat.isPrefixOf (c :: rest) || isSubstring pat rest

/-- A track, as the subset of `mpd_client::responses::Song` the core reads:
its `url`, its `title()`, its `artists()` and its `album()`. -/
structure Song where
  url : List Char
  title : Option (List Char)
  artists : List (List Char)
  album : Option (List Char)
deriving DecidableEq

/-- Type `FilterField` from `src/filter.rs`. -/
inductive FilterField where
  | Title
  | Artist
  | Album
  | Any
deriving DecidableEq

/-- Type `FilterError` from `src/filter.rs`. -/
inductive FilterError where
  | InvalidField
  | InvalidValue
deriving DecidableEq

/-- Models `FromStr for FilterField` from `src/filter.rs`. -/
def FilterField.from_str (s : List Char) : Except FilterError FilterField :=
  if s = "title".toList then .ok .Title
  else if s = "artist".toList then .ok .Artist
  else if s = "album".toList then .ok .Album
  else if s = "any".toList then .ok .Any
  else .error .InvalidField

/-- Type `Filter` from `src/filter.rs`. -/
structure Filter where
  field : FilterField
  value : List Char
  invert : Bool
deriving DecidableEq

/-- Strip one leading negation marker, modelling the
`if s.starts_with('!') { s = &s[1..]; ... }` pattern of `Filter::from_str`;
the `Bool` component records whether the marker was present. -/
def stripBang (s : List Char) : Bool × List Char :=
  match s with
  | '!' :: rest => (true, rest)
  | _ => (false, s)

/-- Models `s.splitn(2, ':')` as the part before the first colon plus, as the
optional second element of the iterator, everything after the first colon
(present exactly when the input contains a colon, possibly empty). -/
def splitn2Colon (s : List Char) : List Char × Option (List Char) :=
  (s.takeWhile (fun c => c ≠ ':'),
   if s.contains ':' then some ((s.dropWhile (fun c => c ≠ ':')).tail) else none)

/-- Models `FromStr for Filter` from `src/filter.rs`. -/
def Filter.from_str (s : List Char) : Except FilterError Filter :=
  if ! s.contains ':' then
    .ok { field := .Any, value := (stripBang s).2, invert := (stripBang s).1 }
  else
    match (splitn2Colon s).2 with
    | none => .error .InvalidValue
    | some value =>
      match FilterField.from_str (stripBang (splitn2Colon s).1).2 with
      | .error e => .error e
      | .ok fld =>
        .ok { field := fld, value := value,
              invert := (stripBang (splitn2Colon s).1).1 }

/-- Models `Filter::is_inverted` from `src/filter.rs`. -/
def Filter.is_inverted (f : Filter) : Bool :=
  f.invert

/-- Models `Filter::as_field` from `src/filter.rs`. -/
def Filter.as_field (f : Filter) (field : FilterField) : Filter :=
  { field := field, value := f.value, invert := f.invert }

/-- Models the final line of `Filter::matches`:
`to_compare.is_some_and(|s| s.to_lowercase().contains(&self.value))`. -/
def matchLower (value : List Char) (to_compare : Option (List Char)) : Bool :=
  match to_compare with
  | none => false
  | some s => isSubstring value (toLowerStr s)

/-- The `to_compare` attribute selection of `Filter::matches` for a concrete
(non-`Any`) field: the title, the first listed artist (none when the artist
list is empty), or the album. -/
def Song.to_compare (song : Song) : FilterField → Option (List Char)
  | .Title => song.title
  | .Artist =>
      match song.artists with
      | [] => none
      | a :: _ => some a
  | .Album => song.album
  | .Any => none

/-- Models `Filter::matches` from `src/filter.rs`.  For the three concrete fields the
value is compared against the lowercased selected attribute; for `Any` the
Rust code returns the disjunction of `matches` on the three field-specialized
copies `as_field(Title/Artist/Album)`, each of which immediately takes its
concrete-field branch — that one-step recursion is unrolled here, and the
decomposition equation of the source is proved as claim C9. -/
def Filter.matches (f : Filter) (song : Song) : Bool :=
  match f.field with
  | .Any =>
      matchLower f.value (song.to_compare .Title)
        || matchLower f.value (song.to_compare .Artist)
        || matchLower f.value (song.to_compare .Album)
  | fld => matchLower f.value (song.to_compare fld)

/-- Type `AppState` from `src/state.rs`: the persistence flag and the set of
already-played URIs (modelled as a duplicate-free-by-insertion list). -/
structure AppState where
  persist : Bool
  already_played : List (List Char)
deriving DecidableEq

/-- Models `AppState::has_been_played` from `src/state.rs`. -/
def AppState.has_been_played (st : AppState) (song : Song) : Bool :=
  st.already_played.contains song.url

/-- Models `AppState::mark_as_played` from `src/state.rs`: insert the song's url into
the set (the on-disk save it also performs is I/O, outside this model). -/
def AppState.mark_as_played (st : AppState) (song : Song) : AppState :=
  { st with already_played := st.already_played.insert song.url }

/-- Models `AppState::clear` from `src/state.rs`: empty the set (the on-disk save it
also performs is I/O, outside this model). -/
def AppState.clear (st : AppState) : AppState :=
  { st with already_played := [] }

/-- The fields of `mpd_client::responses::Status` read by `is_active`: the
optional `(position, id)` pairs for the current and next songs, and the queue
length. -/
structure Status where
  current_song : Option (Nat × Nat)
  next_song : Option (Nat × Nat)
  playlist_length : Nat
deriving DecidableEq

/-- Type `ActivityStatus` from `src/main.rs`. -/
inductive ActivityStatus where
  | NotActive
  | Active (n : Nat) (play_first : Bool)
deriving DecidableEq

/-- Models `is_active` from `src/main.rs` (its `ctx` argument contributes only
`num_buffer`).  The result is `none` exactly when the Rust `usize` expression
`len - current - 1` would underflow, i.e. when `current + 1 > len`. -/
def is_active (num_buffer : Nat) (status : Status) : Option ActivityStatus :=
  if status.next_song.isNone && status.current_song.isNone then
    some (.Active (1 + num_buffer) true)
  else if num_buffer ≠ 0 then
    let len := status.playlist_length
    match status.current_song with
    | none => some (.Active (1 + num_buffer) true)
    | some (current, _) =>
      if current + 1 ≤ len then
        let remaining := len - current - 1
        if remaining = 0 then
          some (.Active num_buffer false)
        else if remaining < num_buffer then
          some (.Active remaining false)
        else
          some .NotActive
      else
        none
  else
    some .NotActive

/-- The error cases of `queue_next` in `src/main.rs` (`eyre!` messages), plus
`RecursionLimit`, which marks fuel exhaustion of the modelled recursion and is
proved unreachable at fuel 2. -/
inductive QueueError where
  | EmptyLibrary
  | FiltersExhausted
  | InvertedFiltersExhausted
  | NoSongsToChoose
  | RecursionLimit
deriving DecidableEq

/-- The inclusion-filter step of `queue_next` (src/main.rs, the
`if !filters.is_empty()` block): keep songs matching at least one filter;
`none` models the `"no songs left after filtering"` error. -/
def applyFilters (filters : List Filter) (songs : List Song) :
    Option (List Song) :=
  if filters.isEmpty then some songs
  else
    let songs := songs.filter fun song => filters.any fun f => f.matches song
    if songs.isEmpty then none else some songs

/-- The exclusion-filter step of `queue_next` (src/main.rs, the
`if !inverted_filters.is_empty()` block): keep songs matching none of the
inverted filters; `none` models the `"no songs left after inverted filtering"`
error. -/
def applyInvertedFilters (inverted_filters : List Filter) (songs : List Song) :
    Option (List Song) :=
  if inverted_filters.isEmpty then some songs
  else
    let songs :=
      songs.filter fun song => inverted_filters.all fun f => ! f.matches song
    if songs.isEmpty then none else some songs

/-- The tail of `queue_next` (src/main.rs, from `songs.choose(rng)` on): pick
the `k`-th candidate modulo the pool size (`choose` yields `none` exactly on an
empty slice) and record it in the history when tracking is enabled. -/
def chooseAndMark (songs : List Song) (k : Nat) (state : Option AppState) :
    Except QueueError (Song × Option AppState) :=
  match songs.get? (k % songs.length) with
  | none => .error .NoSongsToChoose
  | some next => .ok (next, state.map fun st => st.mark_as_played next)

/-- Models `queue_next` from `src/main.rs`, fuel-indexed.  The catalog plays the role
of the `ListAllIn` response (re-read unchanged on the recursive call), `state`
is `ctx.state`, and the returned pair is the chosen song together with the
state after `mark_as_played`.  The recursive history-reset branch passes the
cleared state, exactly as `state.clear(); return queue_next(...)` does. -/
def queue_next (fuel : Nat) (catalog : List Song)
    (filters inverted_filters : List Filter) (k : Nat)
    (state : Option AppState) : Except QueueError (Song × Option AppState) :=
  match fuel with
  | 0 => .error .RecursionLimit
  | fuel + 1 =>
    if catalog.isEmpty then .error .EmptyLibrary
    else
      match applyFilters filters catalog with
      | none => .error .FiltersExhausted
      | some songs1 =>
        match applyInvertedFilters inverted_filters songs1 with
        | none => .error .InvertedFiltersExhausted
        | some songs2 =>
          match state with
          | none => chooseAndMark songs2 k none
          | some st =>
            let songs3 :=
              songs2.filter fun song => ! st.has_been_played song
            if songs3.isEmpty then
              queue_next fuel catalog filters inverted_filters k
                (some st.clear)
            else
              chooseAndMark songs3 k (some st)

/-- The filtered candidate pool of `queue_next` before the history step:
inclusion filters, then exclusion filters. -/
def eligiblePool (catalog : List Song) (filters inverted_filters : List Filter) :
    Option (List Song) :=
  (applyFilters filters catalog).bind (applyInvertedFilters inverted_filters)

/-- Holds when a `queue_next` result is a success whose song comes from `pool`
and whose new history consists of exactly that song's url (i.e. the history was
cleared and then the chosen song recorded). -/
def ResetSelects (r : Except QueueError (Song × Option AppState))
    (pool : List Song) : Prop :=
  match r with
  | .ok (next, some st2) => next ∈ pool ∧ st2.already_played = [next.url]
  | _ => False

/-- Holds when a post-call state records the given song as already played
(and in particular is still a tracking state). -/
def PlayedIn (next : Song) (state2 : Option AppState) : Prop :=
  match state2 with
  | some st2 => st2.has_been_played next = true
  | none => False

/-! ### Helper lemmas -/

/-- Stripping the optional negation marker yields a suffix of the input. -/
lemma stripBang_suffix (s : List Char) : (stripBang s).2 <:+ s := by
  unfold stripBang
  split
  · exact List.suffix_cons _ _
  · exact List.suffix_refl _

/-- When the input contains a colon, the second `splitn(2, ':')` part is
present: everything after the first colon. -/
lemma splitn2Colon_snd_of_contains (s : List Char)
    (hc : s.contains ':' = true) :
    (splitn2Colon s).2 = some ((s.dropWhile (fun c => c ≠ ':')).tail) := by
  show (if s.contains ':' = true then
      some ((s.dropWhile (fun c => c ≠ ':')).tail) else none) =
    some ((s.dropWhile (fun c => c ≠ ':')).tail)
  rw [if_pos hc]

/-- Lemma: `FilterField::from_str` only ever produces the `InvalidField` error. -/
lemma FilterField.from_str_error (t : List Char) (e : FilterError)
    (h : FilterField.from_str t = .error e) : e = .InvalidField := by
  unfold FilterField.from_str at h
  iterate 4 (all_goals try split at h)
  all_goals simp_all

/-- The inclusion-filter step never turns a non-empty catalog into an empty
successful result. -/
lemma applyFilters_ne (filters : List Filter) (c s : List Song)
    (h : applyFilters filters c = some s) (hc : c.isEmpty = false) :
    s.isEmpty = false := by
  unfold applyFilters at h
  split at h
  · cases h; exact hc
  · simp only [] at h
    split at h
    · cases h
    · cases h
      simp_all

/-- The exclusion-filter step never turns a non-empty pool into an empty
successful result. -/
lemma applyInvertedFilters_ne (inverted_filters : List Filter) (c s : List Song)
    (h : applyInvertedFilters inverted_filters c = some s)
    (hc : c.isEmpty = false) : s.isEmpty = false := by
  unfold applyInvertedFilters at h
  split at h
  · cases h; exact hc
  · simp only [] at h
    split at h
    · cases h
    · cases h
      simp_all

/-- After a `clear`, no song reads as already played. -/
lemma AppState.clear_not_played (st : AppState) (song : Song) :
    st.clear.has_been_played song = false := rfl

/-- Lemma: `mark_as_played` makes the marked song read as already played. -/
lemma AppState.mark_self_played (st : AppState) (song : Song) :
    (st.mark_as_played song).has_been_played song = true := by
  simp [AppState.mark_as_played, AppState.has_been_played, List.contains,
    List.elem_eq_mem]

/-- With an empty history, the history-narrowing filter keeps every song. -/
lemma filter_not_played_of_empty (st : AppState)
    (hst : st.already_played = []) (l : List Song) :
    (l.filter fun song => ! st.has_been_played song) = l := by
  apply List.filter_eq_self.mpr
  intro a _
  simp [AppState.has_been_played, hst]

/-- The chooser step never reports the fuel-exhaustion marker. -/
lemma chooseAndMark_ne_limit (songs : List Song) (k : Nat)
    (state : Option AppState) :
    chooseAndMark songs k state ≠ .error .RecursionLimit := by
  unfold chooseAndMark
  split <;> simp

/-- With an already-empty history the reset branch of `queue_next` cannot
trigger, so every positive fuel computes the same result as fuel 1. -/
lemma queue_next_cleared (m : Nat) (catalog : List Song)
    (filters inverted_filters : List Filter) (k : Nat) (st : AppState)
    (hst : st.already_played = []) :
    queue_next (m + 1) catalog filters inverted_filters k (some st) =
      queue_next 1 catalog filters inverted_filters k (some st) := by
  rw [show (1 : Nat) = 0 + 1 from rfl]
  simp only [queue_next]
  split
  · rfl
  · rename_i hcat
    split
    · rfl
    · rename_i songs1 h1
      split
      · rfl
      · rename_i songs2 h2
        simp only [filter_not_played_of_empty st hst]
        have hc : catalog.isEmpty = false := by simp_all
        have hs2 : songs2.isEmpty = false :=
          applyInvertedFilters_ne _ _ _ h2 (applyFilters_ne _ _ _ h1 hc)
        simp only [hs2, Bool.false_eq_true, if_false]

/-- Fuel irrelevance: every fuel of at least 2 computes the same `queue_next`
result as fuel 2 — the reset recursion runs at most once per call. -/
lemma queue_next_fuel (n : Nat) (catalog : List Song)
    (filters inverted_filters : List Filter) (k : Nat)
    (state : Option AppState) :
    queue_next (n + 2) catalog filters inverted_filters k state =
      queue_next 2 catalog filters inverted_filters k state := by
  show queue_next (n + 1 + 1) catalog filters inverted_filters k state =
    queue_next (1 + 1) catalog filters inverted_filters k state
  conv_lhs => rw [queue_next]
  conv_rhs => rw [queue_next]
  split
  · rfl
  · split
    · rfl
    · split
      · rfl
      · split
        · rfl
        · rename_i st
          simp only []
          split
          · exact queue_next_cleared n _ _ _ _ _ rfl
          · rfl

/-- A `queue_next` call on an already-empty history cannot report the
fuel-exhaustion marker at any positive fuel. -/
lemma queue_next_cleared_no_limit (m : Nat) (catalog : List Song)
    (filters inverted_filters : List Filter) (k : Nat) (st : AppState)
    (hst : st.already_played = []) :
    queue_next (m + 1) catalog filters inverted_filters k (some st) ≠
      .error .RecursionLimit := by
  intro hcontra
  rw [queue_next] at hcontra
  split at hcontra
  · cases hcontra
  · rename_i hcat
    split at hcontra
    · cases hcontra
    · rename_i songs1 h1
      split at hcontra
      · cases hcontra
      · rename_i songs2 h2
        simp only [filter_not_played_of_empty st hst] at hcontra
        have hc : catalog.isEmpty = false := by simp_all
        have hs2 : songs2.isEmpty = false :=
          applyInvertedFilters_ne _ _ _ h2 (applyFilters_ne _ _ _ h1 hc)
        simp only [hs2, Bool.false_eq_true, if_false] at hcontra
        exact chooseAndMark_ne_limit _ _ _ hcontra

/-- Fuel 2 never reports the fuel-exhaustion marker: the reset path of
`queue_next` runs at most once per top-level call. -/
lemma queue_next_two_no_limit (catalog : List Song)
    (filters inverted_filters : List Filter) (k : Nat)
    (state : Option AppState) :
    queue_next 2 catalog filters inverted_filters k state ≠
      .error .RecursionLimit := by
  intro hcontra
  rw [show (2 : Nat) = 1 + 1 from rfl, queue_next] at hcontra
  split at hcontra
  · cases hcontra
  · split at hcontra
    · cases hcontra
    · split at hcontra
      · cases hcontra
      · split at hcontra
        · exact chooseAndMark_ne_limit _ _ _ hcontra
        · rename_i st
          simp only [] at hcontra
          split at hcontra
          · exact queue_next_cleared_no_limit 0 _ _ _ _ _ rfl hcontra
          · exact chooseAndMark_ne_limit _ _ _ hcontra

/-- A fuel-1 `queue_next` call on an empty history reduces to choosing from
the filtered pool. -/
lemma queue_next_one_fresh (catalog : List Song)
    (filters inverted_filters : List Filter) (k : Nat) (st : AppState)
    (hst : st.already_played = []) (songs1 pool : List Song)
    (h1 : applyFilters filters catalog = some songs1)
    (h2 : applyInvertedFilters inverted_filters songs1 = some pool)
    (hcat : catalog.isEmpty = false) :
    queue_next 1 catalog filters inverted_filters k (some st) =
      chooseAndMark pool k (some st) := by
  have hp : pool.isEmpty = false :=
    applyInvertedFilters_ne _ _ _ h2 (applyFilters_ne _ _ _ h1 hcat)
  rw [show (1 : Nat) = 0 + 1 from rfl, queue_next]
  simp only [hcat, Bool.false_eq_true, if_false, h1, h2,
    filter_not_played_of_empty st hst, hp]

/-! ### Claim theorems -/

/-- C1 (Selector exhaustion-reset): for a non-empty catalog whose filtered
candidate pool is non-empty, if the history contains every member of that
pool, then `queue_next` (at any fuel of at least 2) clears the history, does
not return an error, and returns a track from that same pool, whose URI is
the sole member of the new history. -/
theorem queue_next_exhaustion_reset (n : Nat) (catalog : List Song)
    (filters inverted_filters : List Filter) (k : Nat) (st : AppState)
    (pool : List Song) (hcat : catalog ≠ [])
    (hpool : eligiblePool catalog filters inverted_filters = some pool)
    (hne : pool ≠ [])
    (hall : ∀ s ∈ pool, st.has_been_played s = true) :
    ResetSelects
      (queue_next (n + 2) catalog filters inverted_filters k (some st))
      pool := by
  have hcat2 : catalog.isEmpty = false := by simpa using hcat
  unfold eligiblePool at hpool
  cases h1 : applyFilters filters catalog with
  | none => rw [h1] at hpool; cases hpool
  | some songs1 =>
    rw [h1] at hpool
    replace hpool : applyInvertedFilters inverted_filters songs1 = some pool :=
      hpool
    have hstep : (pool.filter fun song => ! st.has_been_played song) = [] := by
      apply List.filter_eq_nil_iff.mpr
      intro a ha
      simp [hall a ha]
    rw [queue_next_fuel, show (2 : Nat) = 1 + 1 from rfl, queue_next]
    simp only [hcat2, Bool.false_eq_true, if_false, h1, hpool, hstep,
      List.isEmpty_nil, if_true]
    rw [queue_next_one_fresh catalog filters inverted_filters k st.clear rfl
      songs1 pool h1 hpool hcat2]
    unfold chooseAndMark
    have hlen : 0 < pool.length := List.length_pos.mpr hne
    have hidx : k % pool.length < pool.length := Nat.mod_lt _ hlen
    rw [List.get?_eq_get hidx]
    refine ⟨List.get_mem pool _ _, ?_⟩
    simp [AppState.clear, AppState.mark_as_played]

/-- Witness for C1: a two-song catalog with both songs already played; the
call resets the history and picks the first song. -/
theorem queue_next_exhaustion_reset_witness :
    ResetSelects
      (queue_next 2
        [{ url := "a".toList, title := none, artists := [], album := none },
         { url := "b".toList, title := none, artists := [], album := none }]
        [] [] 0
        (some { persist := false,
                already_played := ["a".toList, "b".toList] }))
      [{ url := "a".toList, title := none, artists := [], album := none },
       { url := "b".toList, title := none, artists := [], album := none }] :=
  queue_next_exhaustion_reset 0
    [{ url := "a".toList, title := none, artists := [], album := none },
     { url := "b".toList, title := none, artists := [], album := none }]
    [] [] 0
    { persist := false, already_played := ["a".toList, "b".toList] }
    [{ url := "a".toList, title := none, artists := [], album := none },
     { url := "b".toList, title := none, artists := [], album := none }]
    (by decide) (by decide) (by decide) (by decide)

/-- C2 (Termination of the reset path): the recursive history-reset branch of
`queue_next` executes at most once per top-level call — every fuel of at
least 2 gives the same result as fuel 2, and fuel 2 never reports the
fuel-exhaustion marker. -/
theorem queue_next_reset_terminates (n : Nat) (catalog : List Song)
    (filters inverted_filters : List Filter) (k : Nat)
    (state : Option AppState) :
    queue_next (n + 2) catalog filters inverted_filters k state =
        queue_next 2 catalog filters inverted_filters k state ∧
      queue_next 2 catalog filters inverted_filters k state ≠
        .error .RecursionLimit :=
  ⟨queue_next_fuel n catalog filters inverted_filters k state,
   queue_next_two_no_limit catalog filters inverted_filters k state⟩

/-- Witness for C2 at a concrete input. -/
theorem queue_next_reset_terminates_witness :
    queue_next 2
        [{ url := "a".toList, title := none, artists := [], album := none }]
        [] [] 0 (some { persist := false, already_played := [] }) =
      queue_next 2
        [{ url := "a".toList, title := none, artists := [], album := none }]
        [] [] 0 (some { persist := false, already_played := [] }) ∧
      queue_next 2
        [{ url := "a".toList, title := none, artists := [], album := none }]
        [] [] 0 (some { persist := false, already_played := [] }) ≠
      .error .RecursionLimit :=
  queue_next_reset_terminates 0
    [{ url := "a".toList, title := none, artists := [], album := none }]
    [] [] 0 (some { persist := false, already_played := [] })

/-- C3 (History recorded on success): every successful `queue_next` call with
history tracking enabled returns a state in which the returned track reads as
already played. -/
theorem queue_next_records_history (fuel : Nat) (catalog : List Song)
    (filters inverted_filters : List Filter) (k : Nat) (st : AppState)
    (next : Song) (state2 : Option AppState)
    (h : queue_next fuel catalog filters inverted_filters k (some st) =
      .ok (next, state2)) :
    PlayedIn next state2 := by
  induction fuel generalizing st with
  | zero => cases h
  | succ m ih =>
    rw [queue_next] at h
    split at h
    · cases h
    · split at h
      · cases h
      · split at h
        · cases h
        · simp only [] at h
          split at h
          · exact ih st.clear h
          · unfold chooseAndMark at h
            split at h
            · cases h
            · cases h
              exact AppState.mark_self_played st next

/-- Witness for C3 at a concrete input. -/
theorem queue_next_records_history_witness :
    (AppState.mk false ["a".toList]).has_been_played
      { url := "a".toList, title := none, artists := [], album := none } =
      true :=
  queue_next_records_history 2
    [{ url := "a".toList, title := none, artists := [], album := none }]
    [] [] 0 { persist := false, already_played := [] }
    { url := "a".toList, title := none, artists := [], album := none }
    (some { persist := false, already_played := ["a".toList] })
    (by decide)

/-- C4 counterexample: with bufferSize 3, queue length 5 and current position
3, remaining = 1 and the code returns `Active(1, false)`, not the claimed
`Active(bufferSize - remaining, false) = Active(2, false)`. -/
theorem is_active_deficit_counterexample :
    is_active 3 ⟨some (3, 7), some (4, 8), 5⟩ = some (.Active 1 false) ∧
      is_active 3 ⟨some (3, 7), some (4, 8), 5⟩ ≠
        some (.Active (3 - (5 - 3 - 1)) false) := by
  decide

/-- C4 as amended: for bufferSize > 0 and a current track at position `p` in
a queue of length `L`, if `0 < L - p - 1 < bufferSize` then `is_active`
returns `Active(L - p - 1, playFirst = false)` — the count is `remaining`
itself, not the deficit `bufferSize - remaining`. -/
theorem is_active_partial_buffer_returns_remaining (b : Nat) (st : Status)
    (p i : Nat) (hb : 0 < b) (hc : st.current_song = some (p, i))
    (h1 : 0 < st.playlist_length - p - 1)
    (h2 : st.playlist_length - p - 1 < b) :
    is_active b st = some (.Active (st.playlist_length - p - 1) false) := by
  unfold is_active
  rw [hc]
  rw [if_neg (by simp)]
  rw [if_pos (show b ≠ 0 by omega)]
  show (if p + 1 ≤ st.playlist_length then
      if st.playlist_length - p - 1 = 0 then
        some (ActivityStatus.Active b false)
      else
        if st.playlist_length - p - 1 < b then
          some (ActivityStatus.Active (st.playlist_length - p - 1) false)
        else some ActivityStatus.NotActive
    else none) =
    some (ActivityStatus.Active (st.playlist_length - p - 1) false)
  rw [if_pos (show p + 1 ≤ st.playlist_length by omega)]
  rw [if_neg (show ¬(st.playlist_length - p - 1 = 0) by omega)]
  rw [if_pos h2]

/-- Witness for the amended C4: bufferSize 3, position 1, length 3, so
remaining = 1 and the decision is `Active(1, false)`. -/
theorem is_active_partial_buffer_returns_remaining_witness :
    is_active 3 ⟨some (1, 0), some (2, 0), 3⟩ =
      some (.Active (3 - 1 - 1) false) :=
  is_active_partial_buffer_returns_remaining 3 ⟨some (1, 0), some (2, 0), 3⟩
    1 0 (by decide) rfl (by decide) (by decide)

/-- C7 counterexample: with bufferSize 0, no current song but a next song
reported, the code returns `NotActive`, not `Active(1 + 0, true)`. -/
theorem empty_queue_zero_buffer_counterexample :
    is_active 0 ⟨none, some (0, 0), 1⟩ = some .NotActive ∧
      is_active 0 ⟨none, some (0, 0), 1⟩ ≠ some (.Active (1 + 0) true) := by
  decide

/-- C7 as amended: with neither a current nor a next track the decision is
`Active(1 + bufferSize, true)` for every bufferSize including 0; with a next
track but no current one, the same decision holds only when bufferSize is
nonzero (at bufferSize = 0 the code returns `NotActive` instead). -/
theorem empty_queue_decision :
    (∀ (b : Nat) (st : Status), st.current_song = none →
      st.next_song = none → is_active b st = some (.Active (1 + b) true)) ∧
    (∀ (b : Nat) (st : Status), b ≠ 0 → st.current_song = none →
      st.next_song.isSome → is_active b st = some (.Active (1 + b) true)) := by
  constructor
  · intro b st hc hn
    unfold is_active
    rw [hc, hn]
    rw [if_pos (show (Option.isNone (none : Option (Nat × Nat)) &&
      Option.isNone (none : Option (Nat × Nat))) = true by simp)]
  · intro b st hb hc hn
    unfold is_active
    rw [hc]
    cases hsn : st.next_song with
    | none => rw [hsn] at hn; cases hn
    | some v =>
      rw [if_neg (by simp)]
      rw [if_pos hb]

/-- Witness for the amended C7 at concrete inputs: a fully empty queue with
bufferSize 0, and a next-but-no-current status with bufferSize 2. -/
theorem empty_queue_decision_witness :
    is_active 0 ⟨none, none, 0⟩ = some (.Active (1 + 0) true) ∧
      is_active 2 ⟨none, some (1, 1), 3⟩ = some (.Active (1 + 2) true) :=
  ⟨empty_queue_decision.1 0 ⟨none, none, 0⟩ rfl rfl,
   empty_queue_decision.2 2 ⟨none, some (1, 1), 3⟩ (by decide) rfl (by decide)⟩

/-- C8 (No zero-count activity): whenever `is_active` returns
`Active(n, _)`, the count `n` is at least 1. -/
theorem is_active_never_zero_count (b : Nat) (st : Status) (n : Nat)
    (pf : Bool) (h : is_active b st = some (.Active n pf)) : 0 < n := by
  unfold is_active at h
  split at h
  · cases h; omega
  · split at h
    · simp only [] at h
      split at h
      · cases h; omega
      · split at h
        · split at h
          · cases h; omega
          · split at h
            · cases h; omega
            · cases h
        · cases h
    · cases h

/-- Witness for C8 at a concrete input. -/
theorem is_active_never_zero_count_witness :
    is_active 1 ⟨none, none, 0⟩ = some (.Active 2 true) ∧ 0 < 2 :=
  ⟨by decide,
   is_active_never_zero_count 1 ⟨none, none, 0⟩ 2 true (by decide)⟩

/-- C10 (Arithmetic safety of the remaining count): when the reported current
position is in bounds (`p < L`), the subtraction `L - p - 1` cannot
underflow, so `is_active` is total (never the modelled panic `none`). -/
theorem is_active_no_underflow (b : Nat) (st : Status) (p i : Nat)
    (hc : st.current_song = some (p, i)) (hp : p < st.playlist_length) :
    (is_active b st).isSome = true := by
  unfold is_active
  rw [hc]
  rw [if_neg (by simp)]
  split
  · show (if p + 1 ≤ st.playlist_length then
        if st.playlist_length - p - 1 = 0 then
          some (ActivityStatus.Active b false)
        else
          if st.playlist_length - p - 1 < b then
            some (ActivityStatus.Active (st.playlist_length - p - 1) false)
          else some ActivityStatus.NotActive
      else none).isSome = true
    rw [if_pos (show p + 1 ≤ st.playlist_length from hp)]
    split
    · rfl
    · split <;> rfl
  · rfl

/-- Witness for C10 at a concrete input. -/
theorem is_active_no_underflow_witness :
    (is_active 2 ⟨some (0, 0), some (1, 0), 2⟩).isSome = true :=
  is_active_no_underflow 2 ⟨some (0, 0), some (1, 0), 2⟩ 0 0 rfl (by decide)

/-- C5 counterexample: parsing `title:FOO` stores the value `FOO` verbatim,
not its lowercase `foo`, and the resulting filter fails to match a track
titled `foo` even though case-insensitive matching would succeed. -/
theorem filter_value_not_lowercased_counterexample :
    Filter.from_str ("title:FOO".toList) =
      .ok ⟨.Title, "FOO".toList, false⟩ ∧
    "FOO".toList ≠ toLowerStr ("FOO".toList) ∧
    Filter.matches ⟨.Title, "FOO".toList, false⟩
      ⟨"u".toList, some ("foo".toList), [], none⟩ = false := by
  refine ⟨by decide, by decide, by decide⟩

/-- C5 as amended: `parse` stores the value field verbatim — the exact
substring of the input (a suffix of it), with no lowercasing applied; at
match time only the track attribute is lowercased, so matching is
case-insensitive only in the track's casing, not in the filter text's. -/
theorem filter_value_verbatim (s : List Char) (f : Filter)
    (h : Filter.from_str s = .ok f) : f.value <:+ s := by
  unfold Filter.from_str at h
  split at h
  · cases h
    exact stripBang_suffix s
  · rename_i hncolon
    have hc : s.contains ':' = true := by
      cases h0 : s.contains ':'
      · exact absurd (by rw [h0]; decide) hncolon
      · rfl
    split at h
    · cases h
    · rename_i value hval
      split at h
      · cases h
      · cases h
        have hv : value = (s.dropWhile (fun c => c ≠ ':')).tail := by
          rw [splitn2Colon_snd_of_contains s hc] at hval
          exact (Option.some_inj.mp hval).symm
        rw [hv]
        exact (List.tail_suffix _).trans (List.dropWhile_suffix _)

/-- Witness for the amended C5: the value parsed from `title:XYZ` is the
verbatim suffix `XYZ` of the input. -/
theorem filter_value_verbatim_witness :
    (Filter.mk .Title ("XYZ".toList) false).value <:+ "title:XYZ".toList :=
  filter_value_verbatim ("title:XYZ".toList)
    (Filter.mk .Title ("XYZ".toList) false) (by decide)

/-- C6 counterexample: parsing `title:` (nothing after the colon) does not
fail with `InvalidValue`; it succeeds with an empty value. -/
theorem parse_missing_value_counterexample :
    Filter.from_str ("title:".toList) = .ok ⟨.Title, [], false⟩ := by
  decide

/-- C6 as amended: for inputs containing a colon, an unrecognized field name
(after stripping one leading negation marker) yields `InvalidField`; a
missing value after the colon cannot occur — `splitn(2, ':')` always yields a
(possibly empty) second part, so `InvalidValue` is never returned and
`"field:"` parses successfully. -/
theorem parse_error_invalid_field_only :
    (∀ s : List Char, s.contains ':' = true →
      (stripBang (splitn2Colon s).1).2 ≠ "title".toList →
      (stripBang (splitn2Colon s).1).2 ≠ "artist".toList →
      (stripBang (splitn2Colon s).1).2 ≠ "album".toList →
      (stripBang (splitn2Colon s).1).2 ≠ "any".toList →
      Filter.from_str s = .error .InvalidField) ∧
    (∀ s : List Char, Filter.from_str s ≠ .error .InvalidValue) := by
  constructor
  · intro s hc h1 h2 h3 h4
    unfold Filter.from_str
    rw [if_neg (show ¬((! s.contains ':') = true) by rw [hc]; decide)]
    split
    · rename_i heq
      rw [splitn2Colon_snd_of_contains s hc] at heq
      cases heq
    · split
      · rename_i e he
        rw [FilterField.from_str_error _ _ he]
      · rename_i fld he
        rw [show FilterField.from_str (stripBang (splitn2Colon s).1).2 =
            .error .InvalidField from by
          unfold FilterField.from_str
          rw [if_neg h1, if_neg h2, if_neg h3, if_neg h4]] at he
        simp at he
  · intro s hcontra
    unfold Filter.from_str at hcontra
    split at hcontra
    · cases hcontra
    · rename_i hncolon
      have hc : s.contains ':' = true := by
        cases h0 : s.contains ':'
        · exact absurd (by rw [h0]; decide) hncolon
        · rfl
      split at hcontra
      · rename_i heq
        rw [splitn2Colon_snd_of_contains s hc] at heq
        cases heq
      · split at hcontra
        · rename_i e he
          cases hcontra
          exact absurd (FilterField.from_str_error _ _ he) (by decide)
        · cases hcontra

/-- Witness for the amended C6: an unrecognized field name fails with
`InvalidField`, and a recognized one never yields `InvalidValue`. -/
theorem parse_error_invalid_field_only_witness :
    Filter.from_str ("bogus:x".toList) = .error .InvalidField ∧
      Filter.from_str ("title:x".toList) ≠ .error .InvalidValue :=
  ⟨parse_error_invalid_field_only.1 ("bogus:x".toList) (by decide) (by decide)
      (by decide) (by decide) (by decide),
   parse_error_invalid_field_only.2 ("title:x".toList)⟩

/-- C9 (Any-field decomposition): a filter with field `Any` matches a track
exactly when at least one of its three field-specialized copies (same value
and invert, field `Title`, `Artist` or `Album`) matches it. -/
theorem any_field_decomposition (f : Filter) (song : Song)
    (h : f.field = .Any) :
    f.matches song =
      ((f.as_field .Title).matches song || (f.as_field .Artist).matches song
        || (f.as_field .Album).matches song) := by
  obtain ⟨fld, v, inv⟩ := f
  simp only at h
  subst h
  rfl

/-- Witness for C9 at a concrete filter and track. -/
theorem any_field_decomposition_witness :
    Filter.matches ⟨.Any, "x".toList, false⟩
        ⟨"u".toList, some ("axb".toList), [], none⟩ =
      ((Filter.as_field ⟨.Any, "x".toList, false⟩ .Title).matches
          ⟨"u".toList, some ("axb".toList), [], none⟩ ||
        (Filter.as_field ⟨.Any, "x".toList, false⟩ .Artist).matches
          ⟨"u".toList, some ("axb".toList), [], none⟩ ||
        (Filter.as_field ⟨.Any, "x".toList, false⟩ .Album).matches
          ⟨"u".toList, some ("axb".toList), [], none⟩) :=
  any_field_decomposition ⟨.Any, "x".toList, false⟩
    ⟨"u".toList, some ("axb".toList), [], none⟩ rfl

end Rshuffle
